import Mathlib

/-!
Shallow embedding of the Tripfit outfit-recommendation app (src/app.py).

Modelling conventions:
* Calendar dates are represented by `Nat` ordinals (days); the ISO date
  strings used as dictionary keys in the Python code are order-isomorphic
  to these ordinals, so grouping / ordering behaviour is preserved.
* Python dictionaries keyed by date (`day_styles`) become `Nat → Option String`.
* Python `None` / absent values become `Option`.
* Code that can raise `IndexError` / `KeyError` is embedded with
  `Option`-valued results (`none` = the Python code would raise).
* External HTTP calls (geocoding, forecast, the OpenAI client) are out of
  scope; their *responses* are inputs to the embedded functions, and the
  main button flow logs which external steps it reaches in a `Call` list.
  `WeatherInfo.lat/lon` are omitted: they are floats used only to build
  the forecast HTTP request, never inspected by the embedded logic.
* JSON parsing (`json.loads` specialised to the outfit schema) is an
  abstract parameter `parse : String → Option GenResult`; `none` models
  `json.JSONDecodeError` (or a parse result that is not an object of the
  schema, which makes the subsequent `.get` attribute access raise).
-/

namespace TripFit

/-- `dday_string` (app.py:17) with `date.today()` and the target date passed
as explicit day ordinals; `delta = target - today` in days. -/
def dday_string (today target : Nat) : String :=
  let delta : Int := (target : Int) - (today : Int)
  if delta > 0 then "D-" ++ toString delta
  else if delta = 0 then "D-Day"
  else "D+" ++ toString delta.natAbs

/-- Python `str.strip()` with no arguments: remove leading and trailing
whitespace (structurally recursive so that concrete values reduce). -/
def pyStrip (s : String) : String :=
  String.mk
    (((s.data.dropWhile Char.isWhitespace).reverse.dropWhile
      Char.isWhitespace).reverse)

/-- One entry of a style's `day`/`night` template list (app.py:58-562):
the `items` dict is flattened into its five always-present category lists. -/
structure Variation where
  title : String
  top : List String
  bottom : List String
  outer : List String
  shoes : List String
  accessories : List String
  key_items : List String
  why : String
  checklist : List String
  covers : List String
deriving DecidableEq, Repr

/-- A value of the `STYLE_VARIATIONS` table: two daytime and two evening
variants. -/
structure StyleBucket where
  day : List Variation
  night : List Variation
deriving DecidableEq, Repr

/-- `STYLE_OPTIONS` (app.py:41). -/
def STYLE_OPTIONS : List String :=
  ["미니멀", "빈티지", "스트릿", "캐주얼", "클래식", "러블리", "고프코어", "시티보이/시티걸"]

def minimalBucket : StyleBucket where
  day := [
    { title := "🖤 미니멀 모노 데이룩",
      top := ["화이트/블랙 셔츠", "미니멀 니트(레이어드)"],
      bottom := ["테일러드 슬랙스", "스트레이트 데님(선택)"],
      outer := ["싱글 자켓", "라이트 트렌치(선택)"],
      shoes := ["화이트 스니커즈", "로퍼(선택)"],
      accessories := ["가죽 크로스백", "심플 시계"],
      key_items := ["화이트 셔츠", "슬랙스", "가죽 크로스백"],
      why := "불필요한 디테일 없이 실루엣과 톤으로 정리해 사진이 깔끔하게 나와요. 이동·관광에도 부담 없는 조합입니다.",
      checklist := ["셔츠 여벌", "얇은 니트", "벨트", "보조배터리", "선크림", "미니 파우치"],
      covers := ["오전", "오후"] },
    { title := "🧊 미니멀 레이어드 데이룩",
      top := ["유니 톤 티셔츠", "가디건/집업(레이어)"],
      bottom := ["와이드 슬랙스", "미디 스커트(선택)"],
      outer := ["바람막이/라이트 코트"],
      shoes := ["슬립온", "스니커즈"],
      accessories := ["미니 토트", "선글라스"],
      key_items := ["레이어드 가디건", "와이드 슬랙스", "선글라스"],
      why := "기온 변화에 레이어드로 대응하고, 톤온톤으로 안정감 있게 연출해요.",
      checklist := ["가디건", "얇은 머플러(선택)", "양말", "립밤", "물티슈"],
      covers := ["오전", "오후"] }
  ]
  night := [
    { title := "🌙 미니멀 디너룩",
      top := ["블랙 터틀넥/니트", "셔츠(선택)"],
      bottom := ["울 슬랙스", "롱 스커트(선택)"],
      outer := ["코트/블레이저"],
      shoes := ["로퍼", "미니멀 앵클부츠(선택)"],
      accessories := ["미니백", "실버 액세서리"],
      key_items := ["블랙 니트", "로퍼", "미니백"],
      why := "저녁 조명에서 톤이 정리되면 훨씬 세련돼 보여요. 과한 포인트 없이 소재로 분위기만 살립니다.",
      checklist := ["향/미스트", "작은 액세서리", "핸드크림"],
      covers := ["저녁"] },
    { title := "✨ 미니멀 포멀 무드룩",
      top := ["실키 블라우스/셔츠"],
      bottom := ["슬랙스", "플레어 스커트(선택)"],
      outer := ["블레이저"],
      shoes := ["로퍼", "스트랩 슈즈(선택)"],
      accessories := ["클러치/미니백", "진주/실버"],
      key_items := ["블레이저", "실키 셔츠", "클러치"],
      why := "식사·바/공연 같은 일정에 ‘정돈된 느낌’을 주기 좋고 사진에서도 균형이 잡혀요.",
      checklist := ["블레이저", "여분 스타킹/양말", "헤어핀"],
      covers := ["저녁"] }
  ]

def vintageBucket : StyleBucket where
  day := [
    { title := "🍂 빈티지 레트로 투어룩",
      top := ["체크 셔츠", "니트 베스트(레이어)"],
      bottom := ["하이웨스트 데님", "코듀로이 팬츠(선택)"],
      outer := ["트위드 자켓", "가죽 자켓(선택)"],
      shoes := ["메리제인/로퍼", "캔버스화(선택)"],
      accessories := ["숄더백", "스카프"],
      key_items := ["체크 셔츠", "니트 베스트", "스카프"],
      why := "빈티지의 ‘레이어드’가 여행 사진을 풍성하게 만들어줘요. 색감을 톤다운하면 촌스럽지 않아요.",
      checklist := ["스카프", "얇은 이너", "양말", "선글라스"],
      covers := ["오전", "오후"] },
    { title := "📼 빈티지 데님 무드룩",
      top := ["그래픽 티/프린트 티", "가디건"],
      bottom := ["빈티지 워싱 데님"],
      outer := ["청자켓/헌팅 자켓"],
      shoes := ["스니커즈", "로퍼(선택)"],
      accessories := ["토트백", "볼캡"],
      key_items := ["워싱 데님", "헌팅 자켓", "토트백"],
      why := "편한데도 ‘무드’가 살아서 카페·거리 스냅에 강해요.",
      checklist := ["볼캡", "에코백", "선크림", "보조배터리"],
      covers := ["오전", "오후"] }
  ]
  night := [
    { title := "🌙 빈티지 시네마 룩",
      top := ["블라우스/셔츠(러플/카라)"],
      bottom := ["미디 스커트", "슬랙스(선택)"],
      outer := ["트렌치/코트"],
      shoes := ["로퍼", "메리제인"],
      accessories := ["미니백", "헤어밴드"],
      key_items := ["카라 블라우스", "미디 스커트", "헤어밴드"],
      why := "저녁에는 디테일이 사진에 잘 담겨요. ‘카라/스커트’ 조합이 빈티지 감성을 확실히 줍니다.",
      checklist := ["헤어밴드", "립밤", "향/미스트"],
      covers := ["저녁"] },
    { title := "✨ 빈티지 클래식 나잇룩",
      top := ["니트/가디건(단정)"],
      bottom := ["플리츠 스커트", "슬랙스(선택)"],
      outer := ["울 코트"],
      shoes := ["로퍼"],
      accessories := ["클래식 숄더백", "심플 귀걸이"],
      key_items := ["플리츠 스커트", "울 코트", "숄더백"],
      why := "차분한 톤으로 마감하면 ‘옛 영화 느낌’이 나서 야경/레스토랑에 잘 어울려요.",
      checklist := ["코트", "핸드크림", "작은 액세서리"],
      covers := ["저녁"] }
  ]

def streetBucket : StyleBucket where
  day := [
    { title := "🔥 스트릿 오버핏 데이룩",
      top := ["오버핏 티/후드", "그래픽 포인트"],
      bottom := ["카고 팬츠", "와이드 데님(선택)"],
      outer := ["바시티/항공점퍼"],
      shoes := ["청키 스니커즈"],
      accessories := ["볼캡", "크로스백"],
      key_items := ["후드", "카고 팬츠", "청키 스니커즈"],
      why := "도보/쇼핑 많은 날에 편하고, 사진에 실루엣이 크게 잡혀 스트릿 무드가 확 살아나요.",
      checklist := ["볼캡", "보조배터리", "이어폰", "물티슈"],
      covers := ["오전", "오후"] },
    { title := "🧢 스트릿 레이어 믹스룩",
      top := ["롱슬리브", "반팔 레이어(선택)"],
      bottom := ["조거/와이드 팬츠"],
      outer := ["바람막이", "체크 셔츠(아우터 대용)"],
      shoes := ["스니커즈"],
      accessories := ["백팩", "선글라스"],
      key_items := ["바람막이", "조거 팬츠", "백팩"],
      why := "여행에서 기온이 애매할 때 레이어가 최고예요. 스트릿은 ‘레이어+실용’이 정답.",
      checklist := ["바람막이", "선글라스", "양말", "물"],
      covers := ["오전", "오후"] }
  ]
  night := [
    { title := "🌙 스트릿 나잇 아웃룩",
      top := ["블랙 티/니트", "레더 포인트(선택)"],
      bottom := ["블랙 데님", "카고(선택)"],
      outer := ["레더 자켓", "블루종(선택)"],
      shoes := ["하이탑/청키 스니커즈"],
      accessories := ["체인 액세서리", "미니 크로스백"],
      key_items := ["레더 자켓", "블랙 데님", "체인 액세서리"],
      why := "야경에서는 대비가 살아서 블랙 베이스가 사진발 잘 받아요. 포인트는 하나만!",
      checklist := ["향/미스트", "립밤", "작은 액세서리"],
      covers := ["저녁"] },
    { title := "✨ 스트릿 포인트 컬러룩",
      top := ["블랙 베이스", "컬러 포인트 상의/비니"],
      bottom := ["와이드 팬츠"],
      outer := ["점퍼"],
      shoes := ["스니커즈"],
      accessories := ["비니/캡", "크로스백"],
      key_items := ["포인트 컬러", "와이드 팬츠", "비니"],
      why := "저녁 사진은 포인트 컬러가 더 선명해요. 상의/모자 한 군데만 컬러로 ‘찍어’줍니다.",
      checklist := ["비니", "핸드폰 스트랩", "보조배터리"],
      covers := ["저녁"] }
  ]

def casualBucket : StyleBucket where
  day := [
    { title := "☀️ 캐주얼 데이 투어룩",
      top := ["맨투맨/티셔츠", "셔츠(레이어)"],
      bottom := ["데님/면팬츠"],
      outer := ["가디건/가벼운 자켓"],
      shoes := ["스니커즈"],
      accessories := ["에코백", "볼캡"],
      key_items := ["맨투맨", "스니커즈", "에코백"],
      why := "어디든 무난하고 편해서 일정이 많은 날에 안전한 선택이에요.",
      checklist := ["양말", "보조배터리", "선크림", "물티슈"],
      covers := ["오전", "오후"] },
    { title := "🌿 캐주얼 레이어드 룩",
      top := ["티셔츠", "니트 베스트/가디건"],
      bottom := ["와이드 데님"],
      outer := ["바람막이(선택)"],
      shoes := ["러닝 스니커즈"],
      accessories := ["백팩"],
      key_items := ["가디건", "와이드 데님", "백팩"],
      why := "기온 변화 대응이 쉽고, 활동성이 좋아서 ‘여행 전용’으로 잘 맞아요.",
      checklist := ["가디건", "이어폰", "상비약"],
      covers := ["오전", "오후"] }
  ]
  night := [
    { title := "🌙 캐주얼 디너룩",
      top := ["니트/셔츠(단정)"],
      bottom := ["슬랙스/미디 스커트"],
      outer := ["블레이저(선택)"],
      shoes := ["로퍼/단정 스니커즈"],
      accessories := ["미니백"],
      key_items := ["단정 니트", "슬랙스", "미니백"],
      why := "너무 꾸민 느낌 없이도 저녁 장소에서 깔끔하게 보이는 조합입니다.",
      checklist := ["향/미스트", "립밤"],
      covers := ["저녁"] },
    { title := "✨ 캐주얼 원마일 무드룩",
      top := ["집업/가디건"],
      bottom := ["조거 팬츠(깔끔 핏)"],
      outer := ["코트(선택)"],
      shoes := ["슬립온"],
      accessories := ["토트백"],
      key_items := ["집업", "슬립온", "토트백"],
      why := "숙소 근처/야식/가벼운 산책에 편하고 사진도 ‘꾸안꾸’로 잘 나와요.",
      checklist := ["핸드크림", "얇은 아우터"],
      covers := ["저녁"] }
  ]

def classicBucket : StyleBucket where
  day := [
    { title := "🧥 클래식 시티 워크룩",
      top := ["셔츠/니트(단정)"],
      bottom := ["슬랙스", "미디 스커트(선택)"],
      outer := ["트렌치/블레이저"],
      shoes := ["로퍼"],
      accessories := ["가죽 토트", "심플 시계"],
      key_items := ["트렌치", "로퍼", "가죽 토트"],
      why := "도시 여행에 찰떡인 정돈된 룩이에요. 사진이 ‘격식 있게’ 정리됩니다.",
      checklist := ["벨트", "양말", "헤어 브러시"],
      covers := ["오전", "오후"] },
    { title := "🏛️ 클래식 뮤지엄 룩",
      top := ["니트", "셔츠(레이어)"],
      bottom := ["슬랙스"],
      outer := ["코트(선택)/블레이저"],
      shoes := ["로퍼"],
      accessories := ["스카프(선택)", "미니백"],
      key_items := ["니트", "슬랙스", "스카프"],
      why := "실내(박물관/전시)에서 조명이 안정적이라 클래식 룩이 더 돋보여요.",
      checklist := ["스카프", "미니 파우치", "립밤"],
      covers := ["오전", "오후"] }
  ]
  night := [
    { title := "🌙 클래식 디너 룩",
      top := ["실키 블라우스/셔츠"],
      bottom := ["슬랙스/롱 스커트"],
      outer := ["코트"],
      shoes := ["스트랩 슈즈/로퍼"],
      accessories := ["클러치/미니백"],
      key_items := ["블라우스", "클러치", "코트"],
      why := "저녁엔 소재가 빛을 받아 고급스럽게 보여요. 사진도 분위기 있게 나옵니다.",
      checklist := ["향/미스트", "작은 액세서리"],
      covers := ["저녁"] },
    { title := "✨ 클래식 블랙 타이프 룩",
      top := ["블랙 탑/니트"],
      bottom := ["슬랙스/롱 스커트"],
      outer := ["블레이저"],
      shoes := ["로퍼/힐(선택)"],
      accessories := ["실버 포인트"],
      key_items := ["블레이저", "블랙 탑", "실버 포인트"],
      why := "톤을 제한하면 누구나 실패 없이 ‘단정+세련’으로 갑니다.",
      checklist := ["블레이저", "핸드크림"],
      covers := ["저녁"] }
  ]

def lovelyBucket : StyleBucket where
  day := [
    { title := "🎀 러블리 데이트 무드룩",
      top := ["파스텔 니트/블라우스"],
      bottom := ["미디 스커트", "연청 데님(선택)"],
      outer := ["가디건"],
      shoes := ["메리제인/스니커즈(선택)"],
      accessories := ["미니백", "헤어핀"],
      key_items := ["파스텔 니트", "미니백", "헤어핀"],
      why := "색감과 디테일이 사진에 잘 담겨요. 러블리는 ‘톤+작은 포인트’가 핵심!",
      checklist := ["헤어핀", "립밤", "손거울(선택)"],
      covers := ["오전", "오후"] },
    { title := "🌸 러블리 캐주얼 스냅룩",
      top := ["크롭 가디건/티"],
      bottom := ["플리츠 스커트", "숏팬츠(시즌)"],
      outer := ["라이트 자켓(선택)"],
      shoes := ["스니커즈"],
      accessories := ["에코백", "리본"],
      key_items := ["가디건", "플리츠 스커트", "리본 포인트"],
      why := "움직임이 있는 스커트가 여행 사진에 잘 어울려요. 캐주얼하게 귀여움만 살립니다.",
      checklist := ["에코백", "선크림", "보조배터리"],
      covers := ["오전", "오후"] }
  ]
  night := [
    { title := "🌙 러블리 나잇 룩",
      top := ["블라우스(디테일)"],
      bottom := ["롱 스커트"],
      outer := ["코트/가디건"],
      shoes := ["메리제인/로퍼"],
      accessories := ["미니백", "작은 귀걸이"],
      key_items := ["블라우스", "롱 스커트", "귀걸이"],
      why := "저녁 조명에서 디테일이 더 예쁘게 보여요. 실루엣은 길게, 포인트는 작게!",
      checklist := ["향/미스트", "귀걸이", "핸드크림"],
      covers := ["저녁"] },
    { title := "✨ 러블리 글로우 룩",
      top := ["아이보리 니트"],
      bottom := ["슬랙스/스커트"],
      outer := ["트렌치(선택)"],
      shoes := ["로퍼"],
      accessories := ["펄 포인트"],
      key_items := ["아이보리 니트", "펄 포인트", "로퍼"],
      why := "아이보리 톤은 야경에서 얼굴이 환해 보이고 사진이 부드럽게 나와요.",
      checklist := ["립밤", "작은 파우치"],
      covers := ["저녁"] }
  ]

def gorpcoreBucket : StyleBucket where
  day := [
    { title := "🧗 고프코어 하이브리드 룩",
      top := ["기능성 티/긴팔", "플리스(선택)"],
      bottom := ["나일론 팬츠", "카고 팬츠(선택)"],
      outer := ["바람막이/쉘 자켓"],
      shoes := ["트레일 스니커즈"],
      accessories := ["백팩", "캡"],
      key_items := ["쉘 자켓", "트레일 스니커즈", "백팩"],
      why := "날씨 변동·이동이 많은 여행에 최고예요. 기능성 소재라 실용성도 강합니다.",
      checklist := ["우산/우비(선택)", "보조배터리", "물병", "상비약"],
      covers := ["오전", "오후"] },
    { title := "🌿 고프코어 시티 아웃도어룩",
      top := ["맨투맨/긴팔"],
      bottom := ["조거/나일론 팬츠"],
      outer := ["패딩 베스트(시즌)/바람막이"],
      shoes := ["러닝/트레일 슈즈"],
      accessories := ["웨이스트백", "선글라스"],
      key_items := ["바람막이", "웨이스트백", "러닝 슈즈"],
      why := "도시에서도 아웃도어 감성은 살리되 과하지 않게 ‘시티형’으로 맞춘 버전이에요.",
      checklist := ["선글라스", "물티슈", "휴대용 손세정제"],
      covers := ["오전", "오후"] }
  ]
  night := [
    { title := "🌙 고프코어 나잇 라이트룩",
      top := ["기능성 니트/후디"],
      bottom := ["카고/조거"],
      outer := ["가벼운 다운/쉘(선택)"],
      shoes := ["스니커즈"],
      accessories := ["크로스백"],
      key_items := ["후디", "크로스백", "카고"],
      why := "저녁엔 체온 유지가 중요해서 보온/방풍을 챙겼어요. 편하게 야경 보러 가기 좋아요.",
      checklist := ["얇은 아우터", "핫팩(시즌)"],
      covers := ["저녁"] },
    { title := "✨ 고프코어 톤온톤 룩",
      top := ["다크 톤 상의"],
      bottom := ["다크 톤 팬츠"],
      outer := ["쉘 자켓"],
      shoes := ["스니커즈"],
      accessories := ["캡/비니(선택)"],
      key_items := ["쉘 자켓", "다크 톤", "비니"],
      why := "톤온톤으로 정리하면 기능성 아이템도 ‘패션’으로 보이기 쉬워요.",
      checklist := ["비니", "이어폰"],
      covers := ["저녁"] }
  ]

def cityBucket : StyleBucket where
  day := [
    { title := "🏙️ 시티보이/걸 데이룩",
      top := ["셔츠", "니트(레이어)"],
      bottom := ["와이드 슬랙스/데님"],
      outer := ["코트/자켓(선택)"],
      shoes := ["로퍼/스니커즈"],
      accessories := ["토트백", "안경(선택)"],
      key_items := ["셔츠", "토트백", "와이드 슬랙스"],
      why := "도시 배경에서 ‘정돈된 캐주얼’이 제일 예뻐요. 실루엣은 여유 있게, 컬러는 차분하게!",
      checklist := ["셔츠 여벌", "립밤", "보조배터리"],
      covers := ["오전", "오후"] },
    { title := "☕ 시티 카페 스냅룩",
      top := ["후디/맨투맨(깔끔)", "셔츠 레이어(선택)"],
      bottom := ["슬랙스", "데님(선택)"],
      outer := ["블레이저(선택)"],
      shoes := ["스니커즈"],
      accessories := ["크로스백", "선글라스"],
      key_items := ["깔끔 후디", "슬랙스", "선글라스"],
      why := "카페·서점 같은 실내에서 ‘꾸안꾸’ 사진이 잘 나오는 조합이에요.",
      checklist := ["선글라스", "에코백"],
      covers := ["오전", "오후"] }
  ]
  night := [
    { title := "🌙 시티 나잇 무드룩",
      top := ["니트/셔츠(단정)"],
      bottom := ["슬랙스/롱 스커트"],
      outer := ["코트"],
      shoes := ["로퍼"],
      accessories := ["미니백", "심플 액세서리"],
      key_items := ["코트", "로퍼", "미니백"],
      why := "야경/바/디너에 잘 어울리는 도시적인 무드예요. 소재를 단정하게 맞추면 사진이 고급스럽게 나옵니다.",
      checklist := ["향/미스트", "핸드크림"],
      covers := ["저녁"] },
    { title := "✨ 시티 모노 포인트룩",
      top := ["모노 톤 상의"],
      bottom := ["모노 톤 하의"],
      outer := ["자켓"],
      shoes := ["로퍼/단정 스니커즈"],
      accessories := ["메탈 포인트"],
      key_items := ["모노 톤", "자켓", "메탈 포인트"],
      why := "도시 조명에서는 대비가 중요해서 모노 톤+작은 포인트가 실패 확률이 낮아요.",
      checklist := ["작은 액세서리", "립밤"],
      covers := ["저녁"] }
  ]

/-- `STYLE_VARIATIONS` (app.py:58): dictionary lookup, in key order. -/
def STYLE_VARIATIONS (style : String) : Option StyleBucket :=
  if style = "미니멀" then some minimalBucket
  else if style = "빈티지" then some vintageBucket
  else if style = "스트릿" then some streetBucket
  else if style = "캐주얼" then some casualBucket
  else if style = "클래식" then some classicBucket
  else if style = "러블리" then some lovelyBucket
  else if style = "고프코어" then some gorpcoreBucket
  else if style = "시티보이/시티걸" then some cityBucket
  else none

/-- `pick_variations` (app.py:565): `STYLE_VARIATIONS.get(style) or
STYLE_VARIATIONS["캐주얼"]`.  Every bucket is a non-empty dict (truthy), so
`or` only fires when the key is missing, i.e. it is `getD` with the 캐주얼
bucket (`STYLE_VARIATIONS "캐주얼" = some casualBucket` definitionally). -/
def pick_variations (style : String) : List Variation × List Variation :=
  let base := (STYLE_VARIATIONS style).getD casualBucket
  (base.day, base.night)


/-- One row of `plans` built by the UI loop (app.py:1002):
`{"date": dkey, "slot": slot, "plan": txt}` (a `None` plan is modelled as
`""`, matching `(p["plan"] or "")`). -/
structure PlanEntry where
  date : Nat
  slot : String
  plan : String
deriving DecidableEq, Repr

/-- One row of `calendar_rows` (app.py:702): fields 날짜/시간대/일정/스타일. -/
structure Row where
  date : Nat
  slot : String
  plan : String
  style : String
deriving DecidableEq, Repr

/-- `SLOTS` (app.py:688). -/
def SLOTS : List String := ["오전", "오후", "저녁"]

/-- The body of the inner slot loop of `build_calendar_rows` (app.py:696-702):
the first matching plan entry's stripped text if non-empty, else the
placeholder "—". -/
def calendarRow (plans : List PlanEntry) (d : Nat) (style : String)
    (slot : String) : Row :=
  let plan_text :=
    ((plans.find? fun p => p.date == d && p.slot == slot).map
      fun p => pyStrip p.plan).getD ""
  { date := d, slot := slot,
    plan := if plan_text ≠ "" then plan_text else "—", style := style }

/-- `build_calendar_rows` (app.py:690): one row per day per slot; a date
missing from `day_styles` gets the default style "러블리". -/
def build_calendar_rows (start_date : Nat) (days : Nat) (plans : List PlanEntry)
    (day_styles : Nat → Option String) : List Row :=
  (List.range days).flatMap fun i =>
    SLOTS.map (calendarRow plans (start_date + i)
      ((day_styles (start_date + i)).getD "러블리"))

/-- `WeatherInfo` (app.py:640) without `lat`/`lon` (floats only forwarded to
the forecast HTTP request, never read by the embedded logic). -/
structure WeatherInfo where
  city : String
  country : String
  summary : String
deriving DecidableEq, Repr

/-- The parsed `daily` block of the forecast response (app.py:672-675):
`(d.get(key) or [None])[0]` for each of the three series. `:.0f`-formatted
temperatures are modelled as integers. -/
structure DailyData where
  tmin : Option Int
  tmax : Option Int
  pmax : Option Int
deriving DecidableEq, Repr

/-- `fetch_weather_one_liner` (app.py:658), applied to the parsed daily data
(the HTTP layer is external).  Absent min/max temperature degrades to the
sentinel "날씨 정보 없음"; absent values are never replaced by zero. -/
def fetch_weather_one_liner (d : DailyData) : String :=
  match d.tmin, d.tmax with
  | some tmin, some tmax =>
    let first := "🌡️ " ++ toString tmin ++ "°~" ++ toString tmax ++ "°"
    match d.pmax with
    | some p => first ++ " · " ++ "🌧️ " ++ toString p ++ "%"
    | none => first
  | _, _ => "날씨 정보 없음"

/-- A geocoding best match (app.py:648): `name`/`country` accessed with
`.get(…, default)`, hence `Option`. -/
structure Geo where
  name : Option String
  country : Option String
deriving DecidableEq, Repr

/-- The `destination_card` dict (app.py:782). -/
structure DestCard where
  destination : String
  dday : String
  weather_one_liner : String
deriving DecidableEq, Repr

/-- One outfit dict (app.py:803-810 and the JSON schema): the `items` dict
flattened into its five category lists. -/
structure Outfit where
  title : String
  covers_slots : List String
  top : List String
  bottom : List String
  outer : List String
  shoes : List String
  accessories : List String
  key_items : List String
  why_recommended : String
  packing_checklist : List String
deriving DecidableEq, Repr

/-- One element of `calendar_outfits` (app.py:812-817).  `date` is `Option`
because a model-produced day dict may lack the key (`day.get("date")`). -/
structure DayEntry where
  date : Option Nat
  day_style : String
  day_summary : String
  day_outfits : List Outfit
deriving DecidableEq, Repr

/-- The overall result dict (app.py:819): `destination_card` +
`calendar_outfits`. -/
structure GenResult where
  destination_card : DestCard
  calendar_outfits : List DayEntry
deriving DecidableEq, Repr

/-- The sidebar `user` dict (app.py:967). -/
structure UserInfo where
  gender : String
  age_group : String
  season : String
deriving DecidableEq, Repr

/-- Per-element effectful map: builds the result list element by element and
propagates the first failure (`none` = a raised exception inside the loop
body, aborting the whole Python loop). -/
def mapOpt {α β : Type _} (f : α → Option β) : List α → Option (List β)
  | [] => some []
  | a :: l =>
    match f a, mapOpt f l with
    | some b, some bs => some (b :: bs)
    | _, _ => none

/-- Python `.strip(",")`: remove leading and trailing commas. -/
def stripCommas (s : String) : String :=
  String.mk (((s.data.dropWhile (· == ',')).reverse.dropWhile (· == ',')).reverse)

/-- `_plan_summary` (app.py:775): join `시간대:일정` over non-placeholder rows,
default "가벼운 자유 일정", truncate to 80 chars with an ellipsis. -/
def plan_summary (rows_for_date : List Row) : String :=
  let plans := (rows_for_date.filter fun x => x.plan ≠ "—").map
    fun x => x.slot ++ ":" ++ x.plan
  let summary := if plans = [] then "가벼운 자유 일정"
    else String.intercalate " / " plans
  String.mk (summary.data.take 80) ++
    (if 80 < summary.data.length then "…" else "")

/-- One `setdefault`-append step of the `by_date` grouping (app.py:784-786):
append the row to an existing date's list, else add a new key at the end
(Python dicts preserve insertion order). -/
def insertByDate (acc : List (Nat × List Row)) (r : Row) : List (Nat × List Row) :=
  if acc.any (fun p => p.1 == r.date) then
    acc.map fun p => if p.1 == r.date then (p.1, p.2 ++ [r]) else p
  else acc ++ [(r.date, [r])]

/-- The `by_date` grouping dict (app.py:784-786) as an insertion-ordered
association list. -/
def by_date (rows : List Row) : List (Nat × List Row) :=
  rows.foldl insertByDate []

/-- The outfit dict built from a chosen variation (app.py:803-810). -/
def mkOutfit (weather_summary : String) (v : Variation) : Outfit where
  title := v.title
  covers_slots := v.covers
  top := v.top
  bottom := v.bottom
  outer := v.outer
  shoes := v.shoes
  accessories := v.accessories
  key_items := v.key_items
  why_recommended := weather_summary ++ " 기준으로 구성했어요. " ++ v.why
  packing_checklist := v.checklist

/-- `has_evening_plan` (app.py:794). -/
def hasEveningPlan (rows : List Row) : Bool :=
  rows.any fun x => x.slot == "저녁" && x.plan != "—"

/-- The body of the per-date loop of `mock_generate_calendar`
(app.py:789-817).  `none` models an `IndexError` on `day_vars[0]`,
`night_vars[0]` or `day_vars[1]` (never reached: every bucket has two of
each). -/
def mockDayOpt (weather : WeatherInfo) (day_styles : Nat → Option String)
    (g : Nat × List Row) : Option DayEntry :=
  let style := (day_styles g.1).getD "러블리"
  let dn := pick_variations style
  let first := dn.1[0]?
  let second := if hasEveningPlan g.2 then dn.2[0]? else dn.1[1]?
  match first, second with
  | some a, some b =>
    some { date := some g.1, day_style := style, day_summary := plan_summary g.2,
           day_outfits := [mkOutfit weather.summary a, mkOutfit weather.summary b] }
  | _, _ => none

/-- `mock_generate_calendar` (app.py:780): the deterministic fallback
generator.  `user` and `days` are parameters of the Python function but are
never read; the weather enters only through `weather.summary` (a string), so
no numeric comparison is ever made on weather data. -/
def mock_generate_calendar (user : UserInfo) (weather : WeatherInfo)
    (today start_date : Nat) (days : Nat) (calendar_rows : List Row)
    (day_styles : Nat → Option String) : Option GenResult :=
  let dest := stripCommas (pyStrip (weather.city ++ ", " ++ weather.country))
  let dest_card : DestCard :=
    { destination := dest, dday := dday_string today start_date,
      weather_one_liner := weather.summary }
  (mapOpt (mockDayOpt weather day_styles) (by_date calendar_rows)).map
    fun cal => { destination_card := dest_card, calendar_outfits := cal }


/-- Python `str.find` for a single character: index of the first occurrence,
`none` for `-1`. -/
def firstIdx (l : List Char) (c : Char) : Option Nat :=
  l.findIdx? (· == c)

/-- Python `str.rfind` for a single character: index of the last occurrence,
`none` for `-1`. -/
def lastIdx (l : List Char) (c : Char) : Option Nat :=
  match (l.reverse.findIdx? (· == c)) with
  | some i => some (l.length - 1 - i)
  | none => none

/-- Python slice `text[s:e]` by code points. -/
def substr (t : String) (s e : Nat) : String :=
  String.mk ((t.data.drop s).take (e - s))

/-- The `while len(outfits) < 2` padding loop (app.py:850-858): append copies
of `pad` until the list has at least two entries. -/
def fillTo2 (pad : Outfit) (l : List Outfit) : List Outfit :=
  if l.length < 2 then fillTo2 pad (l ++ [pad]) else l
termination_by 2 - l.length
decreasing_by simp_all [List.length_append]; omega

/-- The style used by the padding loop (app.py:846-847):
`day.get("day_style") or day_styles.get(d, "러블리")` (an empty string is
falsy in Python). -/
def padStyleOf (day_styles : Nat → Option String) (day : DayEntry) : String :=
  if day.day_style ≠ "" then day.day_style
  else match day.date with
    | some d => (day_styles d).getD "러블리"
    | none => "러블리"

/-- The per-day body of the padding loop in `generate_with_ai_or_fallback`
(app.py:843-859): a day with fewer than two outfits is padded with copies of
`night_vars[1]` of that day's style.  `none` models an `IndexError` on
`night_vars[1]` (never reached). -/
def padDay (weather : WeatherInfo) (day_styles : Nat → Option String)
    (day : DayEntry) : Option DayEntry :=
  let outfits := day.day_outfits
  if outfits.length < 2 then
    let dn := pick_variations (padStyleOf day_styles day)
    match dn.2[1]? with
    | some nv1 =>
      some { day with day_outfits := fillTo2 (mkOutfit weather.summary nv1) outfits }
    | none => none
  else some day

/-- The whole post-parse padding pass (app.py:842-859) over
`data.get("calendar_outfits", [])`. -/
def aiPad (weather : WeatherInfo) (day_styles : Nat → Option String)
    (data : GenResult) : Option GenResult :=
  (mapOpt (padDay weather day_styles) data.calendar_outfits).map
    fun days => { data with calendar_outfits := days }

/-- `generate_with_ai_or_fallback` (app.py:821).  The two external effects of
the `try` block are inputs: `modelText` is `resp.output_text` (`none` models
the client construction or the API call raising), and
`parse : String → Option GenResult` is `json.loads` specialised to the outfit
schema (`none` models `json.JSONDecodeError`, or a JSON value that is not an
object of the schema — in which case the later `.get` access raises and the
outer `except` also falls back).  The result pairs the data with the
`used_fallback` flag; `none` would model an uncaught exception (never
reached). -/
def generate_with_ai_or_fallback (parse : String → Option GenResult)
    (modelText : Option String) (openai_key : String) (user : UserInfo)
    (weather : WeatherInfo) (today start_date : Nat) (days : Nat)
    (calendar_rows : List Row) (day_styles : Nat → Option String) :
    Option (GenResult × Bool) :=
  let fallback :=
    (mock_generate_calendar user weather today start_date days calendar_rows
      day_styles).map fun r => (r, true)
  if openai_key = "" then fallback
  else
    match modelText with
    | none => fallback
    | some t0 =>
      let text := pyStrip t0
      let attempt (data : GenResult) : Option (GenResult × Bool) :=
        match aiPad weather day_styles data with
        | some r => some (r, false)
        | none => fallback
      match parse text with
      | some data => attempt data
      | none =>
        match firstIdx text.data (Char.ofNat 123), lastIdx text.data (Char.ofNat 125) with
        | some s, some e =>
          if e > s then
            match parse (substr text s (e + 1)) with
            | some data => attempt data
            | none => fallback
          else fallback
        | _, _ => fallback

/-- The external steps the button flow (app.py:1015-1049) can reach, in
order. -/
inductive Call where
  | geocode
  | forecast
  | generate
deriving DecidableEq, Repr

/-- The terminal states of one button press (app.py:1015-1049). -/
inductive FlowOutcome where
  | emptyDestination
  | cityNotFound
  | success (weather : WeatherInfo) (result : GenResult) (used_fallback : Bool)
deriving DecidableEq, Repr

/-- The inputs of one button press that come from outside the embedded
logic: the widget values and the responses of the external services. -/
structure FlowInput where
  destination_input : String
  geo : Option Geo
  weatherRaises : Bool
  daily : Option DailyData
  use_ai : Bool
  openai_key : String
  modelText : Option String
  user : UserInfo
  today : Nat
  start_date : Nat
  days : Nat
  plans : List PlanEntry
  day_styles : Nat → Option String

/-- The `if btn:` flow (app.py:1015-1049), recording which external calls are
attempted.  `inp.geo = none` covers both "no geocoding match" and
"geocoding raised" (the code collapses both, app.py:1022-1026); a raising
forecast call degrades to the sentinel summary "날씨 정보 없음"
(app.py:1038-1041); `inp.daily` is the parsed `daily` block, `none` for
`r.json().get("daily") or {}` empty.  `none` overall would model an uncaught
exception (never reached). -/
def appFlow (parse : String → Option GenResult) (inp : FlowInput) :
    Option (FlowOutcome × List Call) :=
  if pyStrip inp.destination_input = "" then some (.emptyDestination, [])
  else
    match inp.geo with
    | none => some (.cityNotFound, [Call.geocode])
    | some geo =>
      let city := geo.name.getD (pyStrip inp.destination_input)
      let country := geo.country.getD ""
      let wx := if inp.weatherRaises then "날씨 정보 없음"
        else fetch_weather_one_liner (inp.daily.getD ⟨none, none, none⟩)
      let weather : WeatherInfo := { city := city, country := country, summary := wx }
      let calendar_rows :=
        build_calendar_rows inp.start_date inp.days inp.plans inp.day_styles
      let gen :=
        if inp.use_ai then
          generate_with_ai_or_fallback parse inp.modelText inp.openai_key inp.user
            weather inp.today inp.start_date inp.days calendar_rows inp.day_styles
        else
          (mock_generate_calendar inp.user weather inp.today inp.start_date
            inp.days calendar_rows inp.day_styles).map fun r => (r, true)
      gen.map fun rb =>
        (.success weather rb.1 rb.2, [Call.geocode, Call.forecast, Call.generate])


/-- Placeholder variation used only as the (never-reached) default of `getD`
in derived total forms of the loop bodies. -/
def dummyVariation : Variation :=
  { title := "", top := [], bottom := [], outer := [], shoes := [],
    accessories := [], key_items := [], why := "", checklist := [], covers := [] }

/-- Placeholder row used only as the default of `getD` in theorem
statements. -/
def dummyRow : Row := { date := 0, slot := "", plan := "", style := "" }

/-- Total form of the per-date loop body of `mock_generate_calendar`: the
list indexing of `mockDayOpt` expressed with `getD` (the indexing always
succeeds, `mockDayOpt_eq`). -/
def mockDayFn (weather : WeatherInfo) (day_styles : Nat → Option String)
    (g : Nat × List Row) : DayEntry :=
  let style := (day_styles g.1).getD "러블리"
  let dn := pick_variations style
  { date := some g.1, day_style := style, day_summary := plan_summary g.2,
    day_outfits :=
      [mkOutfit weather.summary (dn.1.getD 0 dummyVariation),
       mkOutfit weather.summary
         (if hasEveningPlan g.2 then dn.2.getD 0 dummyVariation
          else dn.1.getD 1 dummyVariation)] }

lemma pick_lengths (s : String) :
    (pick_variations s).1.length = 2 ∧ (pick_variations s).2.length = 2 := by
  unfold pick_variations STYLE_VARIATIONS
  split_ifs <;> exact ⟨rfl, rfl⟩

lemma list_two {α : Type _} (l : List α) (h : l.length = 2) : ∃ a b, l = [a, b] := by
  match l, h with
  | [a, b], _ => exact ⟨a, b, rfl⟩

lemma mockDayOpt_eq (w : WeatherInfo) (ds : Nat → Option String) (g : Nat × List Row) :
    mockDayOpt w ds g = some (mockDayFn w ds g) := by
  have h := pick_lengths ((ds g.1).getD "러블리")
  obtain ⟨a, b, h1⟩ := list_two _ h.1
  obtain ⟨c, d, h2⟩ := list_two _ h.2
  have hq : pick_variations ((ds g.1).getD "러블리") = ([a, b], [c, d]) :=
    Prod.ext h1 h2
  simp only [mockDayOpt, mockDayFn, hq]
  cases hasEveningPlan g.2 <;> simp [List.getD]

lemma mapOpt_eq_map {α β : Type _} (f : α → Option β) (g : α → β)
    (h : ∀ a, f a = some (g a)) : ∀ l : List α, mapOpt f l = some (l.map g) := by
  intro l
  induction l with
  | nil => rfl
  | cons a l ih => simp [mapOpt, h a, ih]

/-- Master lemma: `mock_generate_calendar` always succeeds and produces one
`mockDayFn` entry per `by_date` group. -/
lemma mock_eq (user : UserInfo) (weather : WeatherInfo) (today start_date days : Nat)
    (rows : List Row) (ds : Nat → Option String) :
    mock_generate_calendar user weather today start_date days rows ds =
      some { destination_card :=
               { destination :=
                   stripCommas (pyStrip (weather.city ++ ", " ++ weather.country)),
                 dday := dday_string today start_date,
                 weather_one_liner := weather.summary },
             calendar_outfits := (by_date rows).map (mockDayFn weather ds) } := by
  unfold mock_generate_calendar
  rw [mapOpt_eq_map (mockDayOpt weather ds) (mockDayFn weather ds)
    (mockDayOpt_eq weather ds) (by_date rows)]
  rfl

lemma forall₂_map_self {α β : Type _} (R : α → β → Prop) (g : α → β)
    (h : ∀ a, R a (g a)) (l : List α) : List.Forall₂ R l (l.map g) := by
  induction l with
  | nil => exact List.Forall₂.nil
  | cons a l ih => exact List.Forall₂.cons (h a) ih

lemma insertByDate_ne_nil (acc : List (Nat × List Row)) (r : Row) :
    insertByDate acc r ≠ [] := by
  unfold insertByDate
  split_ifs with h
  · intro hc
    rcases acc with _ | ⟨p, acc⟩
    · simp at h
    · simp at hc
  · simp

lemma foldl_insertByDate_ne_nil (l : List Row) (acc : List (Nat × List Row))
    (h : acc ≠ []) : l.foldl insertByDate acc ≠ [] := by
  induction l generalizing acc with
  | nil => exact h
  | cons r l ih => exact ih _ (insertByDate_ne_nil acc r)

lemma by_date_ne_nil (rows : List Row) (h : rows ≠ []) : by_date rows ≠ [] := by
  rcases rows with _ | ⟨r, rows⟩
  · exact absurd rfl h
  · exact foldl_insertByDate_ne_nil rows _ (insertByDate_ne_nil [] r)

/-- Every variation reachable through `pick_variations` (any index, any
style) satisfies the observed checklist/key-item bounds. -/
lemma variation_bounds (s : String) (i : Nat) (hi : i < 2) :
    (((pick_variations s).1.getD i dummyVariation).checklist.length ≤ 14 ∧
      ((pick_variations s).1.getD i dummyVariation).key_items.length ≤ 5) ∧
    (((pick_variations s).2.getD i dummyVariation).checklist.length ≤ 14 ∧
      ((pick_variations s).2.getD i dummyVariation).key_items.length ≤ 5) := by
  unfold pick_variations STYLE_VARIATIONS
  split_ifs <;> rcases i with _ | _ | i <;> first | decide | omega


lemma flatMap_range_length {β : Type _} (g : Nat → List β)
    (hk : ∀ m, (g m).length = 3) : ∀ n, ((List.range n).flatMap g).length = 3 * n := by
  intro n
  induction n with
  | zero => rfl
  | succ n ih =>
    rw [List.range_succ, List.flatMap_append, List.length_append, ih]
    simp [hk n]
    omega

lemma flatMap_range_getElem {β : Type _} (g : Nat → List β)
    (hk : ∀ m, (g m).length = 3) :
    ∀ n i j, i < n → j < 3 → ((List.range n).flatMap g)[3 * i + j]? = (g i)[j]? := by
  intro n
  induction n with
  | zero => intro i j hi _; omega
  | succ n ih =>
    intro i j hi hj
    rw [List.range_succ, List.flatMap_append]
    rcases Nat.lt_or_ge i n with h | h
    · rw [List.getElem?_append_left]
      · exact ih i j h hj
      · rw [flatMap_range_length g hk n]; omega
    · have hin : i = n := by omega
      subst hin
      rw [List.getElem?_append_right]
      · rw [flatMap_range_length g hk i]
        have : 3 * i + j - 3 * i = j := by omega
        rw [this]
        simp
      · rw [flatMap_range_length g hk i]; omega

lemma build_calendar_rows_length (start_date days : Nat) (plans : List PlanEntry)
    (ds : Nat → Option String) :
    (build_calendar_rows start_date days plans ds).length = 3 * days := by
  unfold build_calendar_rows
  apply flatMap_range_length
  intro m
  rfl

lemma build_calendar_rows_getElem (start_date days : Nat) (plans : List PlanEntry)
    (ds : Nat → Option String) (i j : Nat) (hi : i < days) (hj : j < 3) :
    (build_calendar_rows start_date days plans ds)[3 * i + j]? =
      some (calendarRow plans (start_date + i)
        ((ds (start_date + i)).getD "러블리") (SLOTS.getD j "")) := by
  unfold build_calendar_rows
  rw [flatMap_range_getElem
    (fun i => SLOTS.map (calendarRow plans (start_date + i)
      ((ds (start_date + i)).getD "러블리"))) (fun _ => rfl) days i j hi hj]
  rcases j with _ | _ | _ | j <;> simp [SLOTS, List.getD] <;> omega


/-- Concrete inputs used by the witness theorems: a single-day winter trip
to Paris with a museum morning and a dinner evening, style 미니멀. -/
def sampleUser : UserInfo := { gender := "여성", age_group := "20대", season := "겨울" }

def sampleWeather : WeatherInfo :=
  { city := "Paris", country := "France", summary := "🌡️ -3°~2° · 🌧️ 10%" }

def samplePlans : List PlanEntry :=
  [{ date := 100, slot := "오전", plan := "박물관" },
   { date := 100, slot := "저녁", plan := "디너" }]

def sampleStyles : Nat → Option String := fun _ => some "미니멀"

def sampleRows : List Row := build_calendar_rows 100 1 samplePlans sampleStyles

/-- C8: `pick_variations` returns the style's own day/night template lists
for each of the eight keys of `STYLE_VARIATIONS`, and the default 캐주얼
bucket's lists for every other string; the keys are exactly
`STYLE_OPTIONS`. -/
theorem claim_C8 :
    (∀ s b, STYLE_VARIATIONS s = some b → pick_variations s = (b.day, b.night)) ∧
    (∀ s, STYLE_VARIATIONS s = none →
      pick_variations s = (casualBucket.day, casualBucket.night)) ∧
    (∀ s, STYLE_VARIATIONS s = none ↔ s ∉ STYLE_OPTIONS) := by
  refine ⟨?_, ?_, ?_⟩
  · intro s b h
    unfold pick_variations
    rw [h]
    rfl
  · intro s h
    unfold pick_variations
    rw [h]
    rfl
  · intro s
    unfold STYLE_VARIATIONS
    split_ifs with h1 h2 h3 h4 h5 h6 h7 h8 <;>
      first
        | (subst h1; simp [STYLE_OPTIONS])
        | (subst h2; simp [STYLE_OPTIONS])
        | (subst h3; simp [STYLE_OPTIONS])
        | (subst h4; simp [STYLE_OPTIONS])
        | (subst h5; simp [STYLE_OPTIONS])
        | (subst h6; simp [STYLE_OPTIONS])
        | (subst h7; simp [STYLE_OPTIONS])
        | (subst h8; simp [STYLE_OPTIONS])
        | simp [STYLE_OPTIONS, h1, h2, h3, h4, h5, h6, h7, h8]

/-- Witness for C8 at the unrecognized empty style string. -/
theorem claim_C8_witness :
    STYLE_VARIATIONS "" = none ∧
    pick_variations "" = (casualBucket.day, casualBucket.night) :=
  ⟨rfl, claim_C8.2.1 "" rfl⟩

/-- C4: the fallback generator is total — for every request (any style
strings, any plans including none, any weather summary including the
sentinel) it returns a result, and every day in scope carries at least one
recommendation.  The weather enters `mock_generate_calendar` only as the
summary *string*, so no numeric comparison on absent weather data can
occur. -/
theorem claim_C4 (user : UserInfo) (weather : WeatherInfo)
    (today start_date days : Nat) (rows : List Row) (ds : Nat → Option String) :
    ∃ res, mock_generate_calendar user weather today start_date days rows ds = some res ∧
      ∀ day ∈ res.calendar_outfits, 1 ≤ day.day_outfits.length := by
  refine ⟨_, mock_eq user weather today start_date days rows ds, ?_⟩
  intro day hday
  simp only [List.mem_map] at hday
  obtain ⟨g, _, rfl⟩ := hday
  simp [mockDayFn]

/-- Witness for C4: empty itinerary, unknown (empty) style, absent-weather
sentinel summary. -/
theorem claim_C4_witness :
    ∃ res, mock_generate_calendar sampleUser ⟨"", "", "날씨 정보 없음"⟩ 0 0 1
        (build_calendar_rows 0 1 [] fun _ => some "") (fun _ => some "") = some res ∧
      ∀ day ∈ res.calendar_outfits, 1 ≤ day.day_outfits.length :=
  claim_C4 sampleUser ⟨"", "", "날씨 정보 없음"⟩ 0 0 1
    (build_calendar_rows 0 1 [] fun _ => some "") (fun _ => some "")

/-- C1: for every request, each day in scope yields exactly two
recommendations: the first is the selected style's first daytime variant,
and the second is the style's first evening variant exactly when the day's
저녁-slot itinerary text is non-empty (i.e. not the placeholder "—", which
`build_calendar_rows` puts in for blank input), else the style's second
daytime variant. -/
theorem claim_C1 (user : UserInfo) (weather : WeatherInfo)
    (today start_date days : Nat) (rows : List Row) (ds : Nat → Option String) :
    ∃ res, mock_generate_calendar user weather today start_date days rows ds = some res ∧
      List.Forall₂ (fun (g : Nat × List Row) (day : DayEntry) =>
        day.day_outfits =
          [mkOutfit weather.summary
             ((pick_variations ((ds g.1).getD "러블리")).1.getD 0 dummyVariation),
           mkOutfit weather.summary
             (if hasEveningPlan g.2 then
                (pick_variations ((ds g.1).getD "러블리")).2.getD 0 dummyVariation
              else (pick_variations ((ds g.1).getD "러블리")).1.getD 1 dummyVariation)])
        (by_date rows) res.calendar_outfits := by
  refine ⟨_, mock_eq user weather today start_date days rows ds, ?_⟩
  show List.Forall₂ _ (by_date rows) ((by_date rows).map (mockDayFn weather ds))
  refine forall₂_map_self _ (mockDayFn weather ds) ?_ (by_date rows)
  intro g
  rfl

/-- Witness for C1 on the concrete sample trip. -/
theorem claim_C1_witness :
    ∃ res, mock_generate_calendar sampleUser sampleWeather 0 100 1 sampleRows
        sampleStyles = some res ∧
      List.Forall₂ (fun (g : Nat × List Row) (day : DayEntry) =>
        day.day_outfits =
          [mkOutfit sampleWeather.summary
             ((pick_variations ((sampleStyles g.1).getD "러블리")).1.getD 0 dummyVariation),
           mkOutfit sampleWeather.summary
             (if hasEveningPlan g.2 then
                (pick_variations ((sampleStyles g.1).getD "러블리")).2.getD 0 dummyVariation
              else (pick_variations ((sampleStyles g.1).getD "러블리")).1.getD 1 dummyVariation)])
        (by_date sampleRows) res.calendar_outfits :=
  claim_C1 sampleUser sampleWeather 0 100 1 sampleRows sampleStyles

/-- C3: for every style in the enumerated set and every non-degenerate trip
(at least one day), the fallback generator returns a non-empty
recommendation set, and every recommendation's packing checklist has at most
14 entries and key-items list at most 5. -/
theorem claim_C3 (style : String) (user : UserInfo) (weather : WeatherInfo)
    (today start_date n : Nat) (plans : List PlanEntry)
    (hstyle : style ∈ STYLE_OPTIONS) (hn : 1 ≤ n) :
    ∃ res,
      mock_generate_calendar user weather today start_date n
        (build_calendar_rows start_date n plans fun _ => some style)
        (fun _ => some style) = some res ∧
      res.calendar_outfits ≠ [] ∧
      ∀ day ∈ res.calendar_outfits, ∀ o ∈ day.day_outfits,
        o.packing_checklist.length ≤ 14 ∧ o.key_items.length ≤ 5 := by
  refine ⟨_, mock_eq user weather today start_date n
    (build_calendar_rows start_date n plans fun _ => some style)
    (fun _ => some style), ?_, ?_⟩
  · have hlen := build_calendar_rows_length start_date n plans (fun _ => some style)
    have hrows : build_calendar_rows start_date n plans (fun _ => some style) ≠ [] := by
      intro hc
      rw [hc] at hlen
      simp at hlen
      omega
    have hbd := by_date_ne_nil _ hrows
    simpa using hbd
  · intro day hday o ho
    simp only [List.mem_map] at hday
    obtain ⟨g, _, rfl⟩ := hday
    simp only [mockDayFn, List.mem_cons, List.not_mem_nil, or_false] at ho
    rcases ho with rfl | rfl
    · simp only [mkOutfit]
      exact (variation_bounds _ 0 (by omega)).1
    · cases hev : hasEveningPlan g.2 with
      | false =>
        simp only [mkOutfit, Bool.false_eq_true, if_false]
        exact (variation_bounds _ 1 (by omega)).1
      | true =>
        simp only [mkOutfit, if_true]
        exact (variation_bounds _ 0 (by omega)).2

/-- Witness for C3: style 미니멀, one-day trip. -/
theorem claim_C3_witness :
    ∃ res,
      mock_generate_calendar sampleUser sampleWeather 0 100 1
        (build_calendar_rows 100 1 samplePlans fun _ => some "미니멀")
        (fun _ => some "미니멀") = some res ∧
      res.calendar_outfits ≠ [] ∧
      ∀ day ∈ res.calendar_outfits, ∀ o ∈ day.day_outfits,
        o.packing_checklist.length ≤ 14 ∧ o.key_items.length ≤ 5 :=
  claim_C3 "미니멀" sampleUser sampleWeather 0 100 1 samplePlans (by decide) (by decide)


lemma getD_mem {α : Type _} (l : List α) (i : Nat) (d : α) (h : i < l.length) :
    l.getD i d ∈ l := by
  rw [List.getD_eq_getElem l d h]
  exact List.getElem_mem h

lemma fillTo2_eq (pad : Outfit) (l : List Outfit) :
    fillTo2 pad l = l ++ List.replicate (2 - l.length) pad := by
  rcases l with _ | ⟨a, _ | ⟨b, l⟩⟩
  · rw [fillTo2, if_pos (by simp), fillTo2, if_pos (by simp), fillTo2,
      if_neg (by simp)]
    rfl
  · rw [fillTo2, if_pos (by simp), fillTo2, if_neg (by simp)]
    rfl
  · rw [fillTo2, if_neg (by simp [Nat.not_lt])]
    simp

/-- Total form of `padDay`: the `night_vars[1]` indexing expressed with
`getD` (it always succeeds, `padDay_eq`). -/
def padDayFn (weather : WeatherInfo) (day_styles : Nat → Option String)
    (day : DayEntry) : DayEntry :=
  if day.day_outfits.length < 2 then
    let pad := mkOutfit weather.summary
      ((pick_variations (padStyleOf day_styles day)).2.getD 1 dummyVariation)
    { day with day_outfits := fillTo2 pad day.day_outfits }
  else day

lemma padDay_eq (w : WeatherInfo) (ds : Nat → Option String) (day : DayEntry) :
    padDay w ds day = some (padDayFn w ds day) := by
  have h := (pick_lengths (padStyleOf ds day)).2
  obtain ⟨c, d, h2⟩ := list_two _ h
  simp only [padDay, padDayFn, h2]
  by_cases hlen : day.day_outfits.length < 2
  · rw [if_pos hlen, if_pos hlen]
    rfl
  · rw [if_neg hlen, if_neg hlen]

lemma aiPad_eq (w : WeatherInfo) (ds : Nat → Option String) (data : GenResult) :
    aiPad w ds data =
      some { data with
             calendar_outfits := data.calendar_outfits.map (padDayFn w ds) } := by
  unfold aiPad
  rw [mapOpt_eq_map (padDay w ds) (padDayFn w ds) (padDay_eq w ds)
    data.calendar_outfits]
  rfl

lemma padDayFn_len (w : WeatherInfo) (ds : Nat → Option String) (day : DayEntry) :
    2 ≤ (padDayFn w ds day).day_outfits.length := by
  unfold padDayFn
  by_cases hlen : day.day_outfits.length < 2
  · rw [if_pos hlen]
    simp [fillTo2_eq]
    omega
  · rw [if_neg hlen]
    omega


/-- C2 counterexample: a winter request (season 겨울, sub-zero forecast
summary) with style 미니멀 and an evening plan.  The produced checklists are
*exactly* the untouched template lists of the style table — the first
outfit's six base items and the evening outfit's three base items
(향/미스트, 작은 액세서리, 핸드크림) — so no cold-weather (nor hot/rain)
item was appended anywhere, and the evening checklist contains no
cold-weather item at all; likewise the key-item lists are the untouched
template lists.  `mock_generate_calendar` never reads `user.season` or any
numeric weather field. -/
theorem claim_C2_counterexample :
    (mock_generate_calendar sampleUser sampleWeather 0 100 1 sampleRows
        sampleStyles).map
      (fun r => r.calendar_outfits.map fun d => d.day_outfits.map
        fun o => o.packing_checklist) =
      some [[["셔츠 여벌", "얇은 니트", "벨트", "보조배터리", "선크림", "미니 파우치"],
             ["향/미스트", "작은 액세서리", "핸드크림"]]] ∧
    (mock_generate_calendar sampleUser sampleWeather 0 100 1 sampleRows
        sampleStyles).map
      (fun r => r.calendar_outfits.map fun d => d.day_outfits.map
        fun o => o.key_items) =
      some [[["화이트 셔츠", "슬랙스", "가죽 크로스백"],
             ["블랙 니트", "로퍼", "미니백"]]] := by
  constructor <;> decide

/-- C2 (amended): the fallback generator copies each chosen variant's
key-item and checklist lists verbatim from the style table — weather
influences only the `why_recommended` prefix string — so no weather-derived
items are appended, no deduplication or truncation is applied, and the
observed bounds (≤ 5 key items, ≤ 14 checklist items) hold because the
table entries themselves are within bounds. -/
theorem claim_C2_amended (user : UserInfo) (weather : WeatherInfo)
    (today start_date days : Nat) (rows : List Row) (ds : Nat → Option String) :
    ∃ res, mock_generate_calendar user weather today start_date days rows ds = some res ∧
      ∀ day ∈ res.calendar_outfits, ∀ o ∈ day.day_outfits,
        ∃ v, (v ∈ (pick_variations day.day_style).1 ∨
              v ∈ (pick_variations day.day_style).2) ∧
          o.key_items = v.key_items ∧ o.packing_checklist = v.checklist ∧
          o.packing_checklist.length ≤ 14 ∧ o.key_items.length ≤ 5 := by
  refine ⟨_, mock_eq user weather today start_date days rows ds, ?_⟩
  intro day hday o ho
  simp only [List.mem_map] at hday
  obtain ⟨g, -, rfl⟩ := hday
  obtain ⟨hl1, hl2⟩ := pick_lengths ((ds g.1).getD "러블리")
  simp only [mockDayFn, List.mem_cons, List.not_mem_nil, or_false] at ho
  simp only [mockDayFn, mkOutfit]
  rcases ho with rfl | rfl
  · refine ⟨(pick_variations ((ds g.1).getD "러블리")).1.getD 0 dummyVariation,
      Or.inl (getD_mem _ 0 _ (by omega)), rfl, rfl, ?_, ?_⟩
    · exact ((variation_bounds _ 0 (by omega)).1).1
    · exact ((variation_bounds _ 0 (by omega)).1).2
  · cases hev : hasEveningPlan g.2 with
    | false =>
      simp only [hev, Bool.false_eq_true, if_false]
      refine ⟨(pick_variations ((ds g.1).getD "러블리")).1.getD 1 dummyVariation,
        Or.inl (getD_mem _ 1 _ (by omega)), rfl, rfl, ?_, ?_⟩
      · exact ((variation_bounds _ 1 (by omega)).1).1
      · exact ((variation_bounds _ 1 (by omega)).1).2
    | true =>
      simp only [hev, if_true]
      refine ⟨(pick_variations ((ds g.1).getD "러블리")).2.getD 0 dummyVariation,
        Or.inr (getD_mem _ 0 _ (by omega)), rfl, rfl, ?_, ?_⟩
      · exact ((variation_bounds _ 0 (by omega)).2).1
      · exact ((variation_bounds _ 0 (by omega)).2).2

/-- Witness for the amended C2 on the concrete winter sample trip. -/
theorem claim_C2_amended_witness :
    ∃ res, mock_generate_calendar sampleUser sampleWeather 0 100 1 sampleRows
        sampleStyles = some res ∧
      ∀ day ∈ res.calendar_outfits, ∀ o ∈ day.day_outfits,
        ∃ v, (v ∈ (pick_variations day.day_style).1 ∨
              v ∈ (pick_variations day.day_style).2) ∧
          o.key_items = v.key_items ∧ o.packing_checklist = v.checklist ∧
          o.packing_checklist.length ≤ 14 ∧ o.key_items.length ≤ 5 :=
  claim_C2_amended sampleUser sampleWeather 0 100 1 sampleRows sampleStyles


lemma gen_false_aiPad (parse : String → Option GenResult)
    (modelText : Option String) (key : String) (user : UserInfo)
    (weather : WeatherInfo) (today start_date days : Nat) (rows : List Row)
    (ds : Nat → Option String) (r : GenResult)
    (hr : generate_with_ai_or_fallback parse modelText key user weather today
      start_date days rows ds = some (r, false)) :
    ∃ data, aiPad weather ds data = some r := by
  unfold generate_with_ai_or_fallback at hr
  by_cases hk : key = ""
  · rw [if_pos hk, mock_eq] at hr
    simp at hr
  · rw [if_neg hk] at hr
    cases modelText with
    | none =>
      rw [mock_eq] at hr
      simp at hr
    | some t0 =>
      simp only [] at hr
      cases hp : parse (pyStrip t0) with
      | some data =>
        simp only [hp] at hr
        cases hq : aiPad weather ds data with
        | some r' =>
          simp only [hq, Option.some.injEq, Prod.mk.injEq] at hr
          exact ⟨data, by rw [hq, hr.1]⟩
        | none =>
          simp only [hq] at hr
          rw [mock_eq] at hr
          simp at hr
      | none =>
        simp only [hp] at hr
        cases h1 : firstIdx (pyStrip t0).data (Char.ofNat 123) with
        | none =>
          simp only [h1] at hr
          rw [mock_eq] at hr
          simp at hr
        | some si =>
          simp only [h1] at hr
          cases h2 : lastIdx (pyStrip t0).data (Char.ofNat 125) with
          | none =>
            simp only [h2] at hr
            rw [mock_eq] at hr
            simp at hr
          | some e =>
            simp only [h2] at hr
            by_cases he : e > si
            · rw [if_pos he] at hr
              cases hp2 : parse (substr (pyStrip t0) si (e + 1)) with
              | some data =>
                simp only [hp2] at hr
                cases hq : aiPad weather ds data with
                | some r' =>
                  simp only [hq, Option.some.injEq, Prod.mk.injEq] at hr
                  exact ⟨data, by rw [hq, hr.1]⟩
                | none =>
                  simp only [hq] at hr
                  rw [mock_eq] at hr
                  simp at hr
              | none =>
                simp only [hp2] at hr
                rw [mock_eq] at hr
                simp at hr
            · rw [if_neg he] at hr
              rw [mock_eq] at hr
              simp at hr

/-- A model-produced result with one day carrying a single outfit, used by
the C9 witness. -/
def sampleAI : GenResult :=
  { destination_card := { destination := "Paris, France", dday := "D-1",
                          weather_one_liner := "☀️" },
    calendar_outfits :=
      [{ date := some 100, day_style := "", day_summary := "",
         day_outfits := [mkOutfit "☀️" dummyVariation] }] }

/-- C9: after a successful model parse, `generate_with_ai_or_fallback` pads
every calendar day with fewer than two outfits with copies of the second
night variant of that day's style (the day's own `day_style` if non-empty,
else the `day_styles` lookup defaulting to 러블리) until it has exactly two,
leaves days with at least two outfits untouched, and therefore every day of
a successfully returned model result carries at least two outfits. -/
theorem claim_C9 (weather : WeatherInfo) (ds : Nat → Option String) :
    (∀ data : GenResult, ∃ res, aiPad weather ds data = some res ∧
      res.calendar_outfits.length = data.calendar_outfits.length ∧
      List.Forall₂ (fun d d' : DayEntry =>
        (2 ≤ d.day_outfits.length → d' = d) ∧
        (d.day_outfits.length < 2 →
          d'.day_outfits = d.day_outfits ++
            List.replicate (2 - d.day_outfits.length)
              (mkOutfit weather.summary
                ((pick_variations (padStyleOf ds d)).2.getD 1 dummyVariation))))
        data.calendar_outfits res.calendar_outfits ∧
      ∀ d' ∈ res.calendar_outfits, 2 ≤ d'.day_outfits.length) ∧
    (∀ (parse : String → Option GenResult) (modelText : Option String)
        (key : String) (user : UserInfo) (today start_date days : Nat)
        (rows : List Row) (r : GenResult),
      generate_with_ai_or_fallback parse modelText key user weather today
        start_date days rows ds = some (r, false) →
      ∀ day ∈ r.calendar_outfits, 2 ≤ day.day_outfits.length) := by
  constructor
  · intro data
    refine ⟨_, aiPad_eq weather ds data, by simp, ?_, ?_⟩
    · show List.Forall₂ _ data.calendar_outfits
        (data.calendar_outfits.map (padDayFn weather ds))
      refine forall₂_map_self _ (padDayFn weather ds) ?_ data.calendar_outfits
      intro d
      constructor
      · intro h2
        unfold padDayFn
        rw [if_neg (Nat.not_lt.2 h2)]
      · intro hlt
        unfold padDayFn
        rw [if_pos hlt]
        simp [fillTo2_eq]
    · intro d' hd'
      simp only [List.mem_map] at hd'
      obtain ⟨d, -, rfl⟩ := hd'
      exact padDayFn_len weather ds d
  · intro parse modelText key user today start_date days rows r hr day hday
    obtain ⟨data, hpad⟩ := gen_false_aiPad parse modelText key user weather
      today start_date days rows ds r hr
    rw [aiPad_eq] at hpad
    simp only [Option.some.injEq] at hpad
    rw [← hpad] at hday
    simp only [List.mem_map] at hday
    obtain ⟨d, -, rfl⟩ := hday
    exact padDayFn_len weather ds d

/-- Witness for C9: a one-outfit model day is padded to two outfits. -/
theorem claim_C9_witness :
    ∃ res, aiPad sampleWeather sampleStyles sampleAI = some res ∧
      ∀ d' ∈ res.calendar_outfits, 2 ≤ d'.day_outfits.length := by
  obtain ⟨res, h1, -, -, h4⟩ := (claim_C9 sampleWeather sampleStyles).1 sampleAI
  exact ⟨res, h1, h4⟩


lemma gen_total (parse : String → Option GenResult) (modelText : Option String)
    (key : String) (user : UserInfo) (weather : WeatherInfo)
    (today start_date days : Nat) (rows : List Row) (ds : Nat → Option String) :
    ∃ rb, generate_with_ai_or_fallback parse modelText key user weather today
      start_date days rows ds = some rb := by
  unfold generate_with_ai_or_fallback
  by_cases hk : key = ""
  · rw [if_pos hk, mock_eq]
    exact ⟨_, rfl⟩
  · rw [if_neg hk]
    cases modelText with
    | none =>
      rw [mock_eq]
      exact ⟨_, rfl⟩
    | some t0 =>
      simp only []
      cases hp : parse (pyStrip t0) with
      | some data =>
        simp only []
        rw [aiPad_eq]
        exact ⟨_, rfl⟩
      | none =>
        simp only []
        cases h1 : firstIdx (pyStrip t0).data (Char.ofNat 123) with
        | none =>
          rw [mock_eq]
          exact ⟨_, rfl⟩
        | some si =>
          cases h2 : lastIdx (pyStrip t0).data (Char.ofNat 125) with
          | none =>
            rw [mock_eq]
            exact ⟨_, rfl⟩
          | some e =>
            simp only []
            by_cases he : e > si
            · rw [if_pos he]
              cases hp2 : parse (substr (pyStrip t0) si (e + 1)) with
              | some data =>
                simp only []
                rw [aiPad_eq]
                exact ⟨_, rfl⟩
              | none =>
                rw [mock_eq]
                exact ⟨_, rfl⟩
            · rw [if_neg he, mock_eq]
              exact ⟨_, rfl⟩


/-- C5: on the model-backed path (non-empty key, model call returned text),
when the raw text does not parse as a whole but the substring from its first
"\x7b" to its last "\x7d" parses, `generate_with_ai_or_fallback` parses
exactly that substring and returns its (padded) parse with
`used_fallback = false`; when no parseable JSON can be extracted — no
"\x7b", no "\x7d", the braces in the wrong order, or the substring failing
to parse — the failure is recoverable and the deterministic fallback result
is returned with `used_fallback = true` instead of an exception. -/
theorem claim_C5 (parse : String → Option GenResult) (t0 key : String)
    (user : UserInfo) (weather : WeatherInfo) (today start_date days : Nat)
    (rows : List Row) (ds : Nat → Option String)
    (hkey : key ≠ "") (hwhole : parse (pyStrip t0) = none) :
    (∀ s e data, firstIdx (pyStrip t0).data (Char.ofNat 123) = some s →
      lastIdx (pyStrip t0).data (Char.ofNat 125) = some e → e > s →
      parse (substr (pyStrip t0) s (e + 1)) = some data →
      ∃ padded, aiPad weather ds data = some padded ∧
        generate_with_ai_or_fallback parse (some t0) key user weather today
          start_date days rows ds = some (padded, false)) ∧
    (firstIdx (pyStrip t0).data (Char.ofNat 123) = none ∨
      lastIdx (pyStrip t0).data (Char.ofNat 125) = none →
      ∃ fb, mock_generate_calendar user weather today start_date days rows ds
          = some fb ∧
        generate_with_ai_or_fallback parse (some t0) key user weather today
          start_date days rows ds = some (fb, true)) ∧
    (∀ s e, firstIdx (pyStrip t0).data (Char.ofNat 123) = some s →
      lastIdx (pyStrip t0).data (Char.ofNat 125) = some e →
      (¬ e > s ∨ parse (substr (pyStrip t0) s (e + 1)) = none) →
      ∃ fb, mock_generate_calendar user weather today start_date days rows ds
          = some fb ∧
        generate_with_ai_or_fallback parse (some t0) key user weather today
          start_date days rows ds = some (fb, true)) := by
  refine ⟨?_, ?_, ?_⟩
  · intro s e data h1 h2 he hsub
    refine ⟨_, aiPad_eq weather ds data, ?_⟩
    unfold generate_with_ai_or_fallback
    rw [if_neg hkey]
    simp only [hwhole, h1, h2]
    rw [if_pos he]
    simp only [hsub]
    rw [aiPad_eq]
  · intro h
    refine ⟨_, mock_eq user weather today start_date days rows ds, ?_⟩
    unfold generate_with_ai_or_fallback
    rw [if_neg hkey]
    simp only [hwhole]
    rcases h with h | h
    · simp only [h]
      rw [mock_eq]
      rfl
    · cases h1 : firstIdx (pyStrip t0).data (Char.ofNat 123) with
      | none =>
        simp only [h1]
        rw [mock_eq]
        rfl
      | some si =>
        simp only [h1, h]
        rw [mock_eq]
        rfl
  · intro s e h1 h2 h
    refine ⟨_, mock_eq user weather today start_date days rows ds, ?_⟩
    unfold generate_with_ai_or_fallback
    rw [if_neg hkey]
    simp only [hwhole, h1, h2]
    rcases h with h | h
    · rw [if_neg h, mock_eq]
      rfl
    · by_cases he : e > s
      · rw [if_pos he]
        simp only [h]
        rw [mock_eq]
        rfl
      · rw [if_neg he, mock_eq]
        rfl

/-- The abstract schema parser used by the C5 witness: accepts exactly the
brace-delimited substring of `sampleModelText`. -/
def sampleParse : String → Option GenResult :=
  fun s => if s = "\x7bJSON\x7d" then some sampleAI else none

/-- Model output wrapping a JSON object in leading/trailing commentary. -/
def sampleModelText : String := "Sure! \x7bJSON\x7d Hope that helps"

/-- Witness for C5: commentary-wrapped JSON is extracted via the
first-brace / last-brace substring and parsed. -/
theorem claim_C5_witness :
    ∃ padded, aiPad sampleWeather sampleStyles sampleAI = some padded ∧
      generate_with_ai_or_fallback sampleParse (some sampleModelText) "key"
        sampleUser sampleWeather 0 100 1 sampleRows sampleStyles =
        some (padded, false) :=
  (claim_C5 sampleParse sampleModelText "key" sampleUser sampleWeather 0 100 1
    sampleRows sampleStyles (by decide) (by decide)).1 6 11 sampleAI
    (by decide) (by decide) (by decide) (by decide)


/-- C6: when geocoding returns no match (or raises — the flow collapses both
to `geo = none`), the button flow terminates with the "city not found"
outcome, and neither the forecast lookup nor any generation call is
attempted. -/
theorem claim_C6 (parse : String → Option GenResult) (inp : FlowInput)
    (hdest : pyStrip inp.destination_input ≠ "") (hgeo : inp.geo = none) :
    ∃ cs, appFlow parse inp = some (FlowOutcome.cityNotFound, cs) ∧
      Call.forecast ∉ cs ∧ Call.generate ∉ cs := by
  refine ⟨[Call.geocode], ?_, by decide, by decide⟩
  unfold appFlow
  rw [if_neg hdest, hgeo]

/-- Flow input used by the C6 witness: unresolvable destination. -/
def sampleFlowNoGeo : FlowInput :=
  { destination_input := "Zzqxw123", geo := none, weatherRaises := false,
    daily := none, use_ai := true, openai_key := "", modelText := none,
    user := sampleUser, today := 0, start_date := 100, days := 1,
    plans := samplePlans, day_styles := sampleStyles }

/-- Witness for C6 on the "Zzqxw123" scenario. -/
theorem claim_C6_witness :
    ∃ cs, appFlow sampleParse sampleFlowNoGeo =
        some (FlowOutcome.cityNotFound, cs) ∧
      Call.forecast ∉ cs ∧ Call.generate ∉ cs :=
  claim_C6 sampleParse sampleFlowNoGeo (by decide) rfl

/-- C7: a weather-fetch failure is non-terminal.  Absent minimum/maximum
temperatures degrade `fetch_weather_one_liner` to the sentinel
"날씨 정보 없음" (they are never replaced by zero), and a raising forecast
call leaves the flow with the same sentinel summary while generation still
runs and the flow still succeeds. -/
theorem claim_C7 :
    (∀ d : DailyData, d.tmin = none ∨ d.tmax = none →
      fetch_weather_one_liner d = "날씨 정보 없음") ∧
    (∀ (parse : String → Option GenResult) (inp : FlowInput),
      pyStrip inp.destination_input ≠ "" → inp.geo ≠ none →
      inp.weatherRaises = true →
      ∃ w res fb cs, appFlow parse inp = some (FlowOutcome.success w res fb, cs) ∧
        w.summary = "날씨 정보 없음" ∧ Call.generate ∈ cs) := by
  constructor
  · intro d hd
    obtain ⟨tmin, tmax, pmax⟩ := d
    rcases tmin with _ | a <;> rcases tmax with _ | b <;>
      first
        | rfl
        | (exfalso; simp [fetch_weather_one_liner] at hd)
  · intro parse inp h1 h2 h3
    unfold appFlow
    rw [if_neg h1]
    cases hg : inp.geo with
    | none => exact absurd hg h2
    | some geo =>
      simp only [h3, if_true]
      cases hua : inp.use_ai with
      | true =>
        obtain ⟨rb, hrb⟩ := gen_total parse inp.modelText inp.openai_key inp.user
          { city := geo.name.getD (pyStrip inp.destination_input),
            country := geo.country.getD "", summary := "날씨 정보 없음" }
          inp.today inp.start_date inp.days
          (build_calendar_rows inp.start_date inp.days inp.plans inp.day_styles)
          inp.day_styles
        rw [hrb]
        exact ⟨_, rb.1, rb.2, _, rfl, rfl, by decide⟩
      | false =>
        rw [mock_eq]
        exact ⟨_, _, _, _, rfl, rfl, by decide⟩

/-- Flow input used by the C7 witness: resolvable destination, raising
forecast call. -/
def sampleFlowWxFail : FlowInput :=
  { destination_input := "Paris",
    geo := some { name := some "Paris", country := some "France" },
    weatherRaises := true, daily := none, use_ai := false, openai_key := "",
    modelText := none, user := sampleUser, today := 0, start_date := 100,
    days := 1, plans := samplePlans, day_styles := sampleStyles }

/-- Witness for C7: absent temperatures give the sentinel, and the flow with
a raising forecast call still generates. -/
theorem claim_C7_witness :
    fetch_weather_one_liner { tmin := none, tmax := some 3, pmax := some 40 } =
      "날씨 정보 없음" ∧
    ∃ w res fb cs, appFlow sampleParse sampleFlowWxFail =
        some (FlowOutcome.success w res fb, cs) ∧
      w.summary = "날씨 정보 없음" ∧ Call.generate ∈ cs :=
  ⟨claim_C7.1 { tmin := none, tmax := some 3, pmax := some 40 } (Or.inl rfl),
   claim_C7.2 sampleParse sampleFlowWxFail (by decide) (by decide) rfl⟩

/-- C10: `build_calendar_rows` returns exactly `days × 3` rows; the row at
flat index `3·i + j` is day `start_date + i` with slot `SLOTS[j]` (hence
rows are ordered by ascending date and, within a date, in the fixed
오전/오후/저녁 slot order), carrying the stripped text of the first matching
plan entry when non-empty and the placeholder "—" otherwise, with a date
missing from `day_styles` defaulting to style 러블리 (all per
`calendarRow`); consequently row dates are monotone in the index. -/
theorem claim_C10 (start_date days : Nat) (plans : List PlanEntry)
    (ds : Nat → Option String) :
    (build_calendar_rows start_date days plans ds).length = days * 3 ∧
    (∀ i j, i < days → j < 3 →
      (build_calendar_rows start_date days plans ds)[3 * i + j]? =
        some (calendarRow plans (start_date + i)
          ((ds (start_date + i)).getD "러블리") (SLOTS.getD j ""))) ∧
    (∀ k₁ k₂, k₁ ≤ k₂ →
      k₂ < (build_calendar_rows start_date days plans ds).length →
      ((build_calendar_rows start_date days plans ds).getD k₁ dummyRow).date ≤
        ((build_calendar_rows start_date days plans ds).getD k₂ dummyRow).date) := by
  have hlen := build_calendar_rows_length start_date days plans ds
  refine ⟨by omega, fun i j hi hj => build_calendar_rows_getElem _ _ _ _ i j hi hj, ?_⟩
  have hdate : ∀ k, k < 3 * days →
      ((build_calendar_rows start_date days plans ds).getD k dummyRow).date =
        start_date + k / 3 := by
    intro k hk
    have hi : k / 3 < days := by omega
    have hj : k % 3 < 3 := by omega
    have hc := build_calendar_rows_getElem start_date days plans ds (k / 3) (k % 3) hi hj
    have hk3 : 3 * (k / 3) + k % 3 = k := by omega
    rw [hk3] at hc
    rw [List.getD_eq_getElem?_getD, hc]
    rfl
  intro k₁ k₂ hle hk₂
  rw [hlen] at hk₂
  rw [hdate k₁ (by omega), hdate k₂ (by omega)]
  have : k₁ / 3 ≤ k₂ / 3 := Nat.div_le_div_right hle
  omega

/-- Witness for C10 on the concrete sample schedule. -/
theorem claim_C10_witness :
    (build_calendar_rows 100 1 samplePlans sampleStyles).length = 1 * 3 ∧
    (build_calendar_rows 100 1 samplePlans sampleStyles)[3 * 0 + 2]? =
      some (calendarRow samplePlans (100 + 0)
        ((sampleStyles (100 + 0)).getD "러블리") (SLOTS.getD 2 "")) ∧
    ((build_calendar_rows 100 1 samplePlans sampleStyles).getD 0 dummyRow).date ≤
      ((build_calendar_rows 100 1 samplePlans sampleStyles).getD 2 dummyRow).date := by
  obtain ⟨h1, h2, h3⟩ := claim_C10 100 1 samplePlans sampleStyles
  exact ⟨h1, h2 0 2 (by omega) (by omega), h3 0 2 (by omega) (by rw [h1]; omega)⟩

end TripFit
